import Mathlib

/-!
Shallow embedding of the AegisClaim Engine claim pipeline:
document classification (`app/services/agents/classifier_agent.py`),
per-type extraction agents (`app/services/agents/*_agent.py`),
the orchestrator (`app/services/claim_processor.py:_process_documents`),
the validator (`_validate_claim`), and the decision engine
(`_make_decision` / `_calculate_total_amount`), together with the
pydantic document schemas (`app/schemas/claim.py`).

Python dictionaries of extracted fields are modelled as association
lists `ExtractDict`; Python floats are modelled as rationals (every
monetary literal in the source is exactly representable); the
classifier's external text-extraction and backend calls are modelled as
oracle parameters (an `Except` value for a call that may raise), since
the source treats them as opaque calls that either return text or
raise.

Two Python-level facts shape the embedding of the rest of the pipeline:
`_call_llm` is defined only on `BaseAgent` (`base_agent.py:110`) while
the extraction agents extend `BaseExtractionAgent(ABC, Generic)`, which
neither defines nor inherits it, so every extraction agent's fallback
pass raises `AttributeError` at the attribute lookup; and the
`ClaimDocument` union is a pydantic-v2 `RootModel`, which exposes its
payload only through `.root` and does not delegate attribute access, so
every `hasattr(doc, ...)`-guarded field read in `_validate_claim` and
`_calculate_total_amount` fails.
-/

namespace Aegis

/-- A JSON-like value stored in an extracted-fields dictionary. -/
inductive Value where
  | vstr (s : String)
  | vnum (q : ℚ)
  | vnull
  | vlist (elems : List Value)
deriving Repr

mutual

def Value.decEq : (a b : Value) → Decidable (a = b)
  | .vstr a, .vstr b =>
    match inferInstanceAs (Decidable (a = b)) with
    | isTrue h => isTrue (by rw [h])
    | isFalse h => isFalse (by intro hh; cases hh; exact h rfl)
  | .vnum a, .vnum b =>
    match inferInstanceAs (Decidable (a = b)) with
    | isTrue h => isTrue (by rw [h])
    | isFalse h => isFalse (by intro hh; cases hh; exact h rfl)
  | .vnull, .vnull => isTrue rfl
  | .vlist a, .vlist b =>
    match Value.decEqList a b with
    | isTrue h => isTrue (by rw [h])
    | isFalse h => isFalse (by intro hh; cases hh; exact h rfl)
  | .vstr _, .vnum _ => isFalse nofun
  | .vstr _, .vnull => isFalse nofun
  | .vstr _, .vlist _ => isFalse nofun
  | .vnum _, .vstr _ => isFalse nofun
  | .vnum _, .vnull => isFalse nofun
  | .vnum _, .vlist _ => isFalse nofun
  | .vnull, .vstr _ => isFalse nofun
  | .vnull, .vnum _ => isFalse nofun
  | .vnull, .vlist _ => isFalse nofun
  | .vlist _, .vstr _ => isFalse nofun
  | .vlist _, .vnum _ => isFalse nofun
  | .vlist _, .vnull => isFalse nofun

def Value.decEqList : (xs ys : List Value) → Decidable (xs = ys)
  | [], [] => isTrue rfl
  | x :: xs, y :: ys =>
    match Value.decEq x y, Value.decEqList xs ys with
    | isTrue h1, isTrue h2 => isTrue (by rw [h1, h2])
    | isFalse h1, _ => isFalse (by intro hh; injection hh with h1' h2'; exact h1 h1')
    | isTrue _, isFalse h2 => isFalse (by intro hh; injection hh with h1' h2'; exact h2 h2')
  | [], _ :: _ => isFalse nofun
  | _ :: _, [] => isFalse nofun

end

instance : DecidableEq Value := Value.decEq

deriving instance DecidableEq for Except

/-- A Python dict of extracted fields: an association list, keys unique,
insertion order preserved (CPython 3.7+ dict semantics). -/
abbrev ExtractDict := List (String × Value)

/-- `d[k]` lookup: first binding of `k` (Python dicts hold each key once). -/
def getKey {α : Type} (d : List (String × α)) (k : String) : Option α :=
  match d with
  | [] => none
  | (k', v) :: rest => if k' = k then some v else getKey rest k

/-- `k in d` for a Python dict. -/
def containsKey {α : Type} (d : List (String × α)) (k : String) : Bool :=
  match d with
  | [] => false
  | (k', _) :: rest => k' = k || containsKey rest k

/-- `d.update(e)` for Python dicts: keys already in `d` are overwritten in
place with `e`'s value, new keys of `e` are appended in `e`'s order. -/
def dictUpdate {α : Type} (d e : List (String × α)) : List (String × α) :=
  (d.map fun kv => (kv.1, (getKey e kv.1).getD kv.2)) ++
    e.filter fun kv => !containsKey d kv.1

/-- `d[k] = v` for a Python dict: overwrite in place if the key exists,
otherwise append. -/
def dictAssign {α : Type} (d : List (String × α)) (k : String) (v : α) :
    List (String × α) :=
  if containsKey d k then d.map fun kv => if kv.1 = k then (k, v) else kv
  else d ++ [(k, v)]

/-- `all(k in d for k in ks)`. -/
def hasAllKeys {α : Type} (d : List (String × α)) (ks : List String) : Bool :=
  ks.all fun k => containsKey d k

/-- The closed document-type enumeration (`app/schemas/claim.py:DocumentType`). -/
inductive DocumentType where
  | bill
  | dischargeSummary
  | idCard
  | prescription
  | labReport
  | unknown
deriving DecidableEq, Repr

/-- The string value of each `DocumentType` enum member. -/
def DocumentType.value : DocumentType → String
  | .bill => "bill"
  | .dischargeSummary => "discharge_summary"
  | .idCard => "id_card"
  | .prescription => "prescription"
  | .labReport => "lab_report"
  | .unknown => "unknown"

/-! ### Date parsing (`_parse_date` in the extraction agents)

Each agent tries an ordered list of `datetime.strptime` formats and
re-renders a successful parse with `strftime('%Y-%m-%d')`.  The formats
appearing in the source are the numeric ones `%Y-%m-%d`, `%Y/%m/%d`,
`%m/%d/%Y`, `%m-%d-%Y`, `%d/%m/%Y`, `%d-%m-%Y`, their two-digit-year
variants with `%y`, and the month-name forms `%b %d, %Y` / `%B %d, %Y`.
CPython's strptime matches `%Y` as exactly four digits, `%y` as exactly
two (values 0-68 mapped to 2000+, 69-99 to 1900+), `%m` as one or two
digits valued 1-12, `%d` as one or two digits valued 1-31, and the
`datetime` constructor then rejects a day beyond the month's length. -/

def allDigits (cs : List Char) : Bool := !cs.isEmpty && cs.all Char.isDigit

def digitsVal (cs : List Char) : Nat :=
  cs.foldl (fun acc c => acc * 10 + (c.toNat - '0'.toNat)) 0

def parseYear4 (cs : List Char) : Option Nat :=
  if cs.length = 4 && allDigits cs then some (digitsVal cs) else none

def parseYear2 (cs : List Char) : Option Nat :=
  if cs.length = 2 && allDigits cs then
    let v := digitsVal cs
    some (if v < 69 then 2000 + v else 1900 + v)
  else none

def parseMonthNum (cs : List Char) : Option Nat :=
  if (cs.length = 1 || cs.length = 2) && allDigits cs then
    let v := digitsVal cs
    if 1 ≤ v && v ≤ 12 then some v else none
  else none

def parseDayNum (cs : List Char) : Option Nat :=
  if (cs.length = 1 || cs.length = 2) && allDigits cs then
    let v := digitsVal cs
    if 1 ≤ v && v ≤ 31 then some v else none
  else none

def isLeapYear (y : Nat) : Bool := y % 4 = 0 && (y % 100 ≠ 0 || y % 400 = 0)

def daysInMonth (y m : Nat) : Nat :=
  if m = 2 then (if isLeapYear y then 29 else 28)
  else if m = 4 || m = 6 || m = 9 || m = 11 then 30
  else 31

/-- The `datetime(y, m, d)` constructor check applied after strptime's
field matching. -/
def mkValidDate (y m d : Nat) : Option (Nat × Nat × Nat) :=
  if 1 ≤ y && d ≤ daysInMonth y m then some (y, m, d) else none

def splitOnChar (sep : Char) (cs : List Char) : List (List Char) :=
  cs.foldr
    (fun c acc =>
      if c = sep then [] :: acc
      else match acc with
        | g :: gs => (c :: g) :: gs
        | [] => [[c]])
    [[]]

def monthAbbrevs : List String :=
  ["jan", "feb", "mar", "apr", "may", "jun", "jul", "aug", "sep", "oct", "nov", "dec"]

def monthFullNames : List String :=
  ["january", "february", "march", "april", "may", "june",
   "july", "august", "september", "october", "november", "december"]

/-- Case-insensitive month-name lookup (strptime compiles its name
alternations with IGNORECASE). -/
def monthFromName (names : List String) (cs : List Char) : Option Nat :=
  match names.indexOf? (String.mk (cs.map Char.toLower)) with
  | some i => some (i + 1)
  | none => none

/-- A strptime format string occurring in the source. -/
inductive DateFmt where
  | ymd (sep : Char)
  | mdy (sep : Char) (shortYear : Bool)
  | dmy (sep : Char) (shortYear : Bool)
  | monName (full : Bool)
deriving DecidableEq, Repr

def parseYearPart (shortYear : Bool) (cs : List Char) : Option Nat :=
  if shortYear then parseYear2 cs else parseYear4 cs

/-- `datetime.strptime(s, fmt)` for the formats used by the agents
(full-string match, then constructor validation). -/
def tryFormat (f : DateFmt) (cs : List Char) : Option (Nat × Nat × Nat) :=
  match f with
  | .ymd sep =>
    match splitOnChar sep cs with
    | [a, b, c] => do
      let y ← parseYear4 a
      let m ← parseMonthNum b
      let d ← parseDayNum c
      mkValidDate y m d
    | _ => none
  | .mdy sep shortYear =>
    match splitOnChar sep cs with
    | [a, b, c] => do
      let m ← parseMonthNum a
      let d ← parseDayNum b
      let y ← parseYearPart shortYear c
      mkValidDate y m d
    | _ => none
  | .dmy sep shortYear =>
    match splitOnChar sep cs with
    | [a, b, c] => do
      let d ← parseDayNum a
      let m ← parseMonthNum b
      let y ← parseYearPart shortYear c
      mkValidDate y m d
    | _ => none
  | .monName full =>
    match splitOnChar ',' cs with
    | [ab, c] =>
      match splitOnChar ' ' ab, c with
      | [mon, day], ' ' :: ytail => do
        let m ← monthFromName (if full then monthFullNames else monthAbbrevs) mon
        let d ← parseDayNum day
        let y ← parseYear4 ytail
        mkValidDate y m d
      | _, _ => none
    | _ => none

/-- Try an ordered format list, first success wins. -/
def tryFormatsList (fmts : List DateFmt) (cs : List Char) : Option (Nat × Nat × Nat) :=
  match fmts with
  | [] => none
  | f :: fs =>
    match tryFormat f cs with
    | some r => some r
    | none => tryFormatsList fs cs

def padNum (n width : Nat) : String :=
  let s := toString n
  String.mk (List.replicate (width - s.length) '0') ++ s

/-- `dt.strftime('%Y-%m-%d')`. -/
def formatYMD : Nat × Nat × Nat → String
  | (y, m, d) => padNum y 4 ++ "-" ++ padNum m 2 ++ "-" ++ padNum d 2

/-- Python `str.strip()`. -/
def stripChars (cs : List Char) : List Char :=
  ((cs.dropWhile Char.isWhitespace).reverse.dropWhile Char.isWhitespace).reverse

/-- The format list reachable in `bill_agent.py:_parse_date` (the longer
list after its `return` statements is dead code). -/
def billDateFormats : List DateFmt :=
  [.ymd '-', .mdy '/' false, .mdy '-' false, .dmy '/' false, .dmy '-' false]

/-- `id_card_agent.py:_parse_date` format list. -/
def idCardDateFormats : List DateFmt :=
  [.ymd '-', .mdy '/' false, .mdy '-' false, .dmy '/' false, .dmy '-' false,
   .mdy '/' true, .mdy '-' true, .ymd '/', .monName false, .monName true]

/-- `lab_report_agent.py:_parse_date` format list. -/
def labReportDateFormats : List DateFmt :=
  [.ymd '-', .mdy '/' false, .mdy '-' false, .dmy '/' false, .dmy '-' false,
   .ymd '/', .monName false, .monName true,
   .mdy '/' true, .mdy '-' true, .dmy '/' true, .dmy '-' true]

/-- `prescription_agent.py:_parse_date` format list. -/
def prescriptionDateFormats : List DateFmt :=
  [.ymd '-', .mdy '/' false, .mdy '-' false, .dmy '/' false, .dmy '-' false,
   .ymd '/', .monName false, .monName true]

/-- `bill_agent.py:_parse_date`: empty input yields `""`; a parse under the
first matching format is re-rendered as ISO; otherwise the stripped input
string itself is returned. -/
def billParseDate (s : String) : String :=
  if s = "" then ""
  else
    let t := stripChars s.toList
    match tryFormatsList billDateFormats t with
    | some ymd => formatYMD ymd
    | none => String.mk t

/-- `id_card_agent.py:_parse_date`: empty input and unparseable input both
yield `None`. -/
def idCardParseDate (s : String) : Option String :=
  if s = "" then none
  else (tryFormatsList idCardDateFormats (stripChars s.toList)).map formatYMD

/-- `lab_report_agent.py:_parse_date`: `None` when no format matches. -/
def labReportParseDate (s : String) : Option String :=
  if s = "" then none
  else (tryFormatsList labReportDateFormats (stripChars s.toList)).map formatYMD

/-- `prescription_agent.py:_parse_date`: `None` when no format matches. -/
def prescriptionParseDate (s : String) : Option String :=
  if s = "" then none
  else (tryFormatsList prescriptionDateFormats (stripChars s.toList)).map formatYMD

/-! ### Classifier (`app/services/agents/classifier_agent.py`)

`classify_document` extracts text, prompts the backend, and parses the
single-label response; its whole body is wrapped in `try/except` that
degrades every failure to `UNKNOWN`.  The text-extraction call and the
backend call are modelled as `Except` oracles (the string they return,
or the exception they raise). -/

/-- The synonym table of `_parse_classification_response`. -/
def typeMapping : List (String × DocumentType) :=
  [("bill", .bill),
   ("discharge", .dischargeSummary),
   ("discharge summary", .dischargeSummary),
   ("discharge_summary", .dischargeSummary),
   ("id", .idCard),
   ("id card", .idCard),
   ("id_card", .idCard),
   ("insurance card", .idCard),
   ("prescription", .prescription),
   ("lab", .labReport),
   ("lab report", .labReport),
   ("lab_report", .labReport),
   ("test results", .labReport)]

def lookupMapping (tbl : List (String × DocumentType)) (k : String) : Option DocumentType :=
  match tbl with
  | [] => none
  | (k', v) :: rest => if k' = k then some v else lookupMapping rest k

/-- Python `str.lower()` composed with `str.strip()` on the response. -/
def normalizeLabel (response : String) : String :=
  String.mk ((stripChars response.toList).map Char.toLower)

/-- `_parse_classification_response`: trim, lowercase, look the label up in
the synonym table, defaulting to `UNKNOWN` (`type_mapping.get(doc_type,
DocumentType.UNKNOWN)`). -/
def parseClassificationResponse (response : String) : DocumentType :=
  (lookupMapping typeMapping (normalizeLabel response)).getD .unknown

/-- `classify_document`: if text extraction raises, or the backend call
raises, the surrounding `except` returns `UNKNOWN`; otherwise the response
is parsed (the prompt built from the first 2000 characters only feeds the
backend oracle, so it is not reproduced here). -/
def classifyDocument (textResult : Except String String)
    (llmResult : Except String String) : DocumentType :=
  match textResult with
  | .error _ => .unknown
  | .ok _ =>
    match llmResult with
    | .error _ => .unknown
    | .ok response => parseClassificationResponse response

/-! ### Extraction agents: two-pass control flow

Each agent's `extract` runs `_extract_with_regex`, possibly runs
`_extract_with_llm`, merges with `extracted.update(llm_data)`, and
checks its required-field list with `all(k in extracted for k in ...)`.
The deterministic pass's output is the parameter `regex`; the fallback
pass, however, never returns data: `_extract_with_llm` starts by
evaluating `self._call_llm`, an attribute undefined on the agents'
class hierarchy, so invoking the fallback raises `AttributeError`,
which each agent's `except` logs and re-raises.  The merge and every
statement after it are therefore reachable only when the fallback is
skipped. -/

/-- The exception raised by every extraction agent's fallback pass:
`_call_llm` exists only on `BaseAgent` (`base_agent.py:110`) and the
extraction agents extend `BaseExtractionAgent(ABC, Generic)`, which
neither defines nor inherits it, so the attribute lookup in
`_extract_with_llm` raises before any backend interaction. -/
def extractionAgentLlmFailure : String := "AttributeError: _call_llm"

/-- The run of one agent's `extract`: whether the fallback/LLM pass was
invoked, and the returned dictionary or the message of the exception
that escaped. -/
structure ExtractRun where
  llmCalled : Bool
  result : Except String ExtractDict
deriving DecidableEq, Repr

def billRequiredFields : List String := ["total_amount", "date_of_service"]

def idCardRequiredFields : List String :=
  ["insurance_provider", "policy_number", "member_id", "member_name"]

def prescriptionRequiredFields : List String :=
  ["patient_name", "date_prescribed", "medications"]

def labReportRequiredFields : List String :=
  ["patient_name", "test_results", "date_collected"]

def dischargeRequiredFields : List String :=
  ["patient_name", "diagnosis", "admission_date", "discharge_date"]

/-- `bill_agent.py:extract` (lines 84-97): the fallback runs only when
the regex pass left `total_amount` or `date_of_service` unpopulated, and
it then raises; when it is skipped, the post-merge required-field check
(the same condition) passes and the regex dictionary is returned
unmerged. -/
def billExtractRun (regex : ExtractDict) : ExtractRun :=
  if !hasAllKeys regex billRequiredFields then
    { llmCalled := true, result := .error extractionAgentLlmFailure }
  else
    { llmCalled := false
      result :=
        if !hasAllKeys regex billRequiredFields then
          .error "Missing required fields in bill data"
        else .ok regex }

/-- Shared shape of `id_card_agent.py` / `prescription_agent.py` /
`discharge_agent.py` / `lab_report_agent.py` `extract`: the fallback
pass is invoked unconditionally and raises, so the merge
(`extracted.update(llm_data)`) and the required-field check after it are
dead code and every run of these agents fails. -/
def unconditionalExtractRun (_ : ExtractDict) : ExtractRun :=
  { llmCalled := true, result := .error extractionAgentLlmFailure }

/-- `id_card_agent.py:extract` (lines 30-50). -/
def idCardExtractRun (regex : ExtractDict) : ExtractRun :=
  unconditionalExtractRun regex

/-- `prescription_agent.py:extract` (lines 30-50). -/
def prescriptionExtractRun (regex : ExtractDict) : ExtractRun :=
  unconditionalExtractRun regex

/-- `discharge_agent.py:extract` (lines 30-50). -/
def dischargeExtractRun (regex : ExtractDict) : ExtractRun :=
  unconditionalExtractRun regex

/-- `lab_report_agent.py:extract` (lines 19-54): the same unconditional
fallback failure; the `date_reported` defaulting at lines 47-48 sits
after the raising call and never executes. -/
def labReportExtractRun (regex : ExtractDict) : ExtractRun :=
  unconditionalExtractRun regex

/-! ### Document schemas (`app/schemas/claim.py`)

The five pydantic models of the `ClaimDocument` union, with `date`
fields carried as their ISO string rendering and `float` as `ℚ`.
A field declared `Field(...)` is required (it must be supplied at
validation even when its type is `Optional`); a field with a default
may be absent. -/

structure BillDoc where
  hospital_name : Option String
  total_amount : ℚ
  date_of_service : String
  patient_name : Option String := none
  patient_id : Option String := none
  items : List ExtractDict := []
  diagnosis_codes : List String := []
  procedure_codes : List String := []
deriving DecidableEq, Repr

structure DischargeDoc where
  patient_name : String
  patient_id : Option String := none
  admission_date : String
  discharge_date : String
  diagnosis : String
  secondary_diagnoses : List String := []
  procedures : List String := []
  discharge_instructions : Option String := none
deriving DecidableEq, Repr

structure IdCardDoc where
  insurance_provider : String
  policy_number : String
  group_number : Option String := none
  member_id : String
  member_name : String
  relationship : Option String := some "self"
  effective_date : Option String := none
  expiration_date : Option String := none
deriving DecidableEq, Repr

structure PrescriptionDoc where
  patient_name : String
  date_prescribed : String
  medications : List ExtractDict
  prescriber_name : Option String := none
  prescriber_license : Option String := none
  instructions : Option String := none
deriving DecidableEq, Repr

structure LabReportDoc where
  patient_name : String
  patient_id : Option String := none
  date_collected : String
  date_reported : String
  test_results : List ExtractDict
  lab_name : Option String := none
  ordering_physician : Option String := none
deriving DecidableEq, Repr

/-- A validated `ClaimDocument`: one of the five typed documents. -/
inductive ClaimDoc where
  | bill (b : BillDoc)
  | dischargeSummary (d : DischargeDoc)
  | idCard (c : IdCardDoc)
  | prescription (p : PrescriptionDoc)
  | labReport (l : LabReportDoc)
deriving DecidableEq, Repr

/-- `doc.type`: the `type` literal of the underlying typed document. -/
def ClaimDoc.docType : ClaimDoc → DocumentType
  | .bill _ => .bill
  | .dischargeSummary _ => .dischargeSummary
  | .idCard _ => .idCard
  | .prescription _ => .prescription
  | .labReport _ => .labReport

/-- A `ClaimDocument` as produced by `ClaimDocument.parse_obj`: a
pydantic-v2 `RootModel` wrapping one of the five typed documents.  The
wrapper exposes the payload only through its `root` field; it does not
delegate attribute access to the wrapped model. -/
structure ClaimDocument where
  root : ClaimDoc
deriving DecidableEq, Repr

/-- `hasattr(doc, 'type') ... doc.type` on the `ClaimDocument` wrapper:
a pydantic-v2 `RootModel` exposes no field of its payload as an
attribute, so the guarded read yields nothing, whatever the payload. -/
def ClaimDocument.typeAttr (_ : ClaimDocument) : Option DocumentType := none

/-- `hasattr(doc, 'patient_name') and doc.patient_name` on the
`ClaimDocument` wrapper: always falsy, for every payload. -/
def ClaimDocument.patientNameAttr (_ : ClaimDocument) : Option String := none

/-- `hasattr(doc, 'total_amount') and doc.total_amount is not None` on
the `ClaimDocument` wrapper: always falsy, for every payload. -/
def ClaimDocument.totalAmountAttr (_ : ClaimDocument) : Option ℚ := none

/-- Modelled from the spec: "`total_amount` = sum of `total_amount` over
all successful Bill documents" — computed from the wrapped payloads,
which the processor's `hasattr`-guarded reads cannot see. -/
def specBillTotalsSum (documents : List ClaimDocument) : ℚ :=
  (documents.map fun doc =>
    match doc.root with
    | .bill b => b.total_amount
    | _ => 0).sum

/-! ### Orchestrator (`claim_processor.py:_process_documents`)

Each classified document runs through `agent.process`; the resulting
model dump is annotated with `file_name`/`file_size` and re-validated
with `ClaimDocument.parse_obj`.  On any exception the handler builds a
minimal `{"type", "file_name", "error", "status"}` dictionary and also
passes it to `ClaimDocument.parse_obj`.  Union validation is modelled
at the level that decides these claims: a member accepts a dictionary
iff the member's `type` literal agrees with the dictionary's `type`
entry (when present) and every required key of the member is present;
pydantic's value coercion, which can only reject further dictionaries,
is not modelled (no theorem below asserts that a particular dictionary
validates under pydantic beyond its keys, and the dictionaries at
stake here fail for lack of required keys alone). -/

/-- The required (i.e. `Field(...)`) keys of each `ClaimDocument` union
member in `app/schemas/claim.py`. -/
def memberRequiredKeys : DocumentType → List String
  | .bill => ["hospital_name", "total_amount", "date_of_service"]
  | .dischargeSummary => ["patient_name", "admission_date", "discharge_date", "diagnosis"]
  | .idCard => ["insurance_provider", "policy_number", "member_id", "member_name"]
  | .prescription => ["patient_name", "date_prescribed", "medications"]
  | .labReport => ["patient_name", "date_collected", "date_reported", "test_results"]
  | .unknown => []

/-- Whether one union member accepts a dictionary. -/
def memberAccepts (t : DocumentType) (d : ExtractDict) : Bool :=
  (match getKey d "type" with
   | some (.vstr s) => s = t.value
   | some _ => false
   | none => true) &&
  hasAllKeys d (memberRequiredKeys t)

/-- Whether `ClaimDocument.parse_obj` succeeds: some union member accepts
the dictionary. -/
def claimDocumentValidates (d : ExtractDict) : Bool :=
  [DocumentType.bill, .dischargeSummary, .idCard, .prescription, .labReport].any
    fun t => memberAccepts t d

/-- One input to `_process_documents`: the file's name and size, the
`DocumentType` the classifier assigned, and the outcome of
`agent.process` on the file (the dumped dictionary, or the exception
message it raised). -/
structure InputDoc where
  fileName : String
  fileSize : Nat
  docType : DocumentType
  agentResult : Except String ExtractDict
deriving Repr

/-- `result_dict['file_name'] = ...; result_dict['file_size'] = ...`. -/
def fileAnnotate (d : ExtractDict) (inp : InputDoc) : ExtractDict :=
  dictUpdate d [("file_name", .vstr inp.fileName), ("file_size", .vnum inp.fileSize)]

/-- The minimal error document built in the `except` handler of
`_process_documents` (lines 140-145). -/
def errorDict (inp : InputDoc) (msg : String) : ExtractDict :=
  [("type", .vstr inp.docType.value),
   ("file_name", .vstr inp.fileName),
   ("error", .vstr msg),
   ("status", .vstr "error")]

/-- `_process_documents`: `UNKNOWN` documents are skipped with `continue`;
otherwise the agent outcome is parsed into the result list, any exception
being routed to the error-dictionary handler, whose own `parse_obj` call
is not guarded — if it raises, the exception escapes the whole loop
(`Except.error`). -/
def processDocuments : List InputDoc → Except String (List ExtractDict)
  | [] => .ok []
  | inp :: rest =>
    if inp.docType = .unknown then processDocuments rest
    else
      let handleError := fun (msg : String) =>
        let ed := errorDict inp msg
        if claimDocumentValidates ed then (processDocuments rest).map (ed :: ·)
        else .error "ValidationError"
      match inp.agentResult with
      | .ok d =>
        let rd := fileAnnotate d inp
        if claimDocumentValidates rd then (processDocuments rest).map (rd :: ·)
        else handleError "ValidationError"
      | .error msg => handleError msg

/-! ### Validator (`claim_processor.py:_validate_claim`) -/

/-- `self.required_docs` — a Python set `{BILL, ID_CARD}`, iterated here
in insertion order (the missing-document message order is otherwise
unspecified by the source). -/
def requiredDocs : List DocumentType := [.bill, .idCard]

/-- `self.doc_descriptions`. -/
def docDescriptions : List (DocumentType × String) :=
  [(.bill, "medical bill"),
   (.dischargeSummary, "discharge summary"),
   (.idCard, "insurance ID card"),
   (.prescription, "prescription"),
   (.labReport, "lab report")]

def lookupDesc (tbl : List (DocumentType × String)) (t : DocumentType) : Option String :=
  match tbl with
  | [] => none
  | (t', v) :: rest => if t' = t then some v else lookupDesc rest t

/-- `self.doc_descriptions.get(doc_type, doc_type.name)`; every parsed
document's type is one of the five described ones, so the default branch
is unreachable in the pipeline. -/
def docDescription (t : DocumentType) : String :=
  (lookupDesc docDescriptions t).getD t.value

/-- One entry of the `discrepancies` list. -/
structure Discrepancy where
  field : String
  message : String
  details : List (String × String)
deriving DecidableEq, Repr

/-- `ClaimValidation` (`app/schemas/claim.py`). -/
structure ClaimValidation where
  missing_documents : List String
  discrepancies : List Discrepancy
  is_valid : Bool
deriving DecidableEq, Repr

/-- One iteration of the `patient_names` collection loop: a truthy
`patient_name` attribute would be stored under the document-type
description (`patient_names[descriptions.get(doc.type, doc.type)] =
doc.patient_name`).  The storing branch is unreachable: the `hasattr`
guard embedded in `patientNameAttr` never passes on the RootModel
wrapper (were it reached, it is rendered here from the wrapped
payload's fields, which the source names through `doc`). -/
def patientNameStep (acc : List (String × String)) (doc : ClaimDocument) :
    List (String × String) :=
  match doc.patientNameAttr with
  | some n =>
    if n = "" then acc else dictAssign acc (docDescription doc.root.docType) n
  | none => acc

/-- The `patient_names` dictionary built by the cross-document check:
empty for every batch, since the collection guard never passes. -/
def patientNamesDict (documents : List ClaimDocument) : List (String × String) :=
  documents.foldl patientNameStep []

/-- The `missing_docs` list of `_validate_claim`: required types not in
`found_types = {doc.type for doc in documents if hasattr(doc, 'type')}`,
rendered by description.  `found_types` is always empty on RootModel
wrappers, so both required types are always reported missing. -/
def missingDocsList (documents : List ClaimDocument) : List String :=
  requiredDocs.foldl
    (fun acc t =>
      if (documents.filterMap ClaimDocument.typeAttr).contains t then acc
      else acc ++ [docDescription t])
    []

/-- The `discrepancies` list of `_validate_claim`: with at least two
documents, a patient-name mismatch is flagged when the per-description
dictionary holds more than one distinct value. -/
def discrepanciesList (documents : List ClaimDocument) : List Discrepancy :=
  if documents.length > 1 then
    let patient_names := patientNamesDict documents
    if ((patient_names.map Prod.snd).dedup).length > 1 then
      [{ field := "patient_name"
         message := "Patient name mismatch across documents"
         details := patient_names }]
    else []
  else []

/-- `_validate_claim` (lines 149-182). -/
def validateClaim (documents : List ClaimDocument) : ClaimValidation :=
  { missing_documents := missingDocsList documents
    discrepancies := discrepanciesList documents
    is_valid := (missingDocsList documents).length = 0 &&
      (discrepanciesList documents).length = 0 }

/-! ### Decision engine (`claim_processor.py:_make_decision`) -/

inductive DecisionStatus where
  | approved
  | rejected
  | pending
deriving DecidableEq, Repr

/-- `ClaimDecision` (`app/schemas/claim.py`); the amounts are always set
by `_make_decision`. -/
structure ClaimDecision where
  status : DecisionStatus
  reason : String
  amount_approved : ℚ
  amount_rejected : ℚ
deriving DecidableEq, Repr

/-- `_calculate_total_amount` (lines 236-247): sum `total_amount` over
the documents whose `hasattr` guard passes — it never does on the
RootModel wrappers the processor feeds in, so the loop body is dead and
the result is `0.0` for every batch. -/
def calculateTotalAmount (documents : List ClaimDocument) : ℚ :=
  documents.foldl
    (fun total doc =>
      match doc.totalAmountAttr with
      | some a => total + a
      | none => total)
    0

/-- `_make_decision` (lines 184-234): missing documents reject, then
discrepancies defer, then the 10,000 auto-approval threshold decides. -/
def makeDecision (documents : List ClaimDocument) (validation : ClaimValidation) :
    ClaimDecision :=
  if validation.missing_documents ≠ [] then
    { status := .rejected
      reason := "Missing required documents: " ++
        String.intercalate ", " validation.missing_documents
      amount_approved := 0
      amount_rejected := calculateTotalAmount documents }
  else if validation.discrepancies ≠ [] then
    { status := .pending
      reason := "Data discrepancies found, requires manual review"
      amount_approved := 0
      amount_rejected := 0 }
  else if calculateTotalAmount documents ≤ 10000 then
    { status := .approved
      reason := "Claim meets all requirements"
      amount_approved := calculateTotalAmount documents
      amount_rejected := 0 }
  else
    { status := .pending
      reason := "Claim amount exceeds automatic approval limit"
      amount_approved := 0
      amount_rejected := 0 }

/-! ### Sample inputs used by concrete instantiations of the theorems -/

/-- Whether one input of `_process_documents` avoids the error handler:
it is skipped as `UNKNOWN`, or its agent succeeded and the annotated
record validates. -/
def docSucceeds (inp : InputDoc) : Bool :=
  inp.docType = .unknown ||
  (match inp.agentResult with
   | .ok d => claimDocumentValidates (fileAnnotate d inp)
   | .error _ => false)

/-- A regex-pass output for the lab-report agent covering its required
fields but not `date_reported`. -/
def sampleLabRegex : ExtractDict :=
  [("patient_name", .vstr "John Doe"),
   ("test_results", .vlist []),
   ("date_collected", .vstr "2024-04-10")]

/-- An `agent.process` output dictionary for a bill. -/
def sampleBillDict : ExtractDict :=
  [("hospital_name", .vstr "General Hospital"),
   ("total_amount", .vnum 1250),
   ("date_of_service", .vstr "2024-04-10")]

/-- An `agent.process` output dictionary for an ID card. -/
def sampleIdCardDict : ExtractDict :=
  [("insurance_provider", .vstr "Aetna"),
   ("policy_number", .vstr "GP123"),
   ("member_id", .vstr "M123"),
   ("member_name", .vstr "John Doe")]

/-- A three-document batch whose middle document raises during
extraction. -/
def failingBatch : List InputDoc :=
  [⟨"bill.pdf", 1000, .bill, .ok sampleBillDict⟩,
   ⟨"discharge.pdf", 800, .dischargeSummary,
     .error "Missing required fields in discharge summary"⟩,
   ⟨"idcard.pdf", 500, .idCard, .ok sampleIdCardDict⟩]

/-- A document the classifier left `UNKNOWN`. -/
def unknownInput : InputDoc := ⟨"mystery.bin", 42, .unknown, .error "unclassified"⟩

/-- A batch with a successful bill, an `UNKNOWN` document, and a
successful ID card. -/
def mixedBatch : List InputDoc :=
  [⟨"b.pdf", 10, .bill, .ok sampleBillDict⟩,
   unknownInput,
   ⟨"c.pdf", 20, .idCard, .ok sampleIdCardDict⟩]

/-- A validated bill above the auto-approval threshold. -/
def billDocOverLimit : ClaimDoc :=
  .bill { hospital_name := some "General Hospital"
          total_amount := 12000
          date_of_service := "2024-04-10" }

/-- A validated bill whose patient is John Doe. -/
def billDocA : ClaimDoc :=
  .bill { hospital_name := some "General Hospital"
          total_amount := 100
          date_of_service := "2024-04-10"
          patient_name := some "John Doe" }

/-- A validated bill whose patient is Jane Roe. -/
def billDocB : ClaimDoc :=
  .bill { hospital_name := some "City Clinic"
          total_amount := 200
          date_of_service := "2024-04-11"
          patient_name := some "Jane Roe" }

/-- A validated ID card (the model has no `patient_name` field). -/
def idCardDocA : ClaimDoc :=
  .idCard { insurance_provider := "Aetna"
            policy_number := "GP123"
            member_id := "M123"
            member_name := "John Doe" }

/-- A clean batch holding the over-limit bill and an ID card, wrapped as
the processor wraps them. -/
def overLimitBatch : List ClaimDocument := [⟨billDocOverLimit⟩, ⟨idCardDocA⟩]

/-- Two same-type bills with conflicting patient names plus an ID card,
wrapped as the processor wraps them. -/
def conflictingNamesBatch : List ClaimDocument :=
  [⟨billDocA⟩, ⟨billDocB⟩, ⟨idCardDocA⟩]

/-! ## Association-list lemmas shared by the proofs -/

theorem getKey_append {α : Type} (a b : List (String × α)) (k : String) :
    getKey (a ++ b) k =
      match getKey a k with
      | some v => some v
      | none => getKey b k := by
  induction a with
  | nil => simp [getKey]
  | cons kv rest ih =>
    by_cases h : kv.1 = k <;> simp [getKey, h, ih]

theorem containsKey_eq_isSome_getKey {α : Type} (d : List (String × α)) (k : String) :
    containsKey d k = (getKey d k).isSome := by
  induction d with
  | nil => simp [containsKey, getKey]
  | cons kv rest ih =>
    by_cases h : kv.1 = k <;> simp [containsKey, getKey, h, ih]

theorem getKey_mapValues {α : Type} (d : List (String × α)) (f : String → α → α)
    (k : String) :
    getKey (d.map fun kv => (kv.1, f kv.1 kv.2)) k = (getKey d k).map (f k) := by
  induction d with
  | nil => simp [getKey]
  | cons kv rest ih =>
    by_cases h : kv.1 = k
    · simp [getKey, h]
    · simp [getKey, h, ih]

theorem getKey_filterKeys {α : Type} (e : List (String × α)) (p : String → Bool)
    (k : String) :
    getKey (e.filter fun kv => p kv.1) k = if p k then getKey e k else none := by
  induction e with
  | nil => simp [getKey]
  | cons kv rest ih =>
    by_cases hp : p kv.1
    · by_cases h : kv.1 = k
      · subst h; simp [getKey, hp, ih]
      · simp [getKey, hp, h, ih]
    · by_cases h : kv.1 = k
      · subst h; simp [List.filter, hp, ih, getKey]
      · simp [List.filter, hp, h, ih, getKey]

/-- Lookup through a Python `d.update(e)`: a key of `e` reads `e`'s
value, any other key reads `d`'s. -/
theorem getKey_dictUpdate {α : Type} (d e : List (String × α)) (k : String) :
    getKey (dictUpdate d e) k =
      if containsKey e k then getKey e k else getKey d k := by
  unfold dictUpdate
  rw [getKey_append, getKey_mapValues (f := fun k' v => (getKey e k').getD v),
    getKey_filterKeys e (fun k' => !containsKey d k') k]
  rcases hd : getKey d k with _ | v
  · have hcd : containsKey d k = false := by
      rw [containsKey_eq_isSome_getKey, hd, Option.isSome_none]
    rcases he : getKey e k with _ | w
    · have hce : containsKey e k = false := by
        rw [containsKey_eq_isSome_getKey, he, Option.isSome_none]
      simp [hcd, hce, he, hd]
    · have hce : containsKey e k = true := by
        rw [containsKey_eq_isSome_getKey, he, Option.isSome_some]
      simp [hcd, hce, he]
  · rcases he : getKey e k with _ | w
    · have hce : containsKey e k = false := by
        rw [containsKey_eq_isSome_getKey, he, Option.isSome_none]
      simp [hce, he, hd]
    · have hce : containsKey e k = true := by
        rw [containsKey_eq_isSome_getKey, he, Option.isSome_some]
      simp [hce, he]

/-! ## Claim theorems -/

/-- C4: for every list of successful documents the Validator's `is_valid`
is true exactly when both the missing-required-document list and the
discrepancy list it computed are empty. -/
theorem C4_is_valid_iff_no_findings (documents : List ClaimDocument) :
    (validateClaim documents).is_valid = true ↔
      (validateClaim documents).missing_documents = [] ∧
        (validateClaim documents).discrepancies = [] := by
  simp only [validateClaim, Bool.and_eq_true, decide_eq_true_eq,
    List.length_eq_zero]

/-- C5: the classifier never propagates a failure — a raising
text-extraction call, a raising backend call, and a backend label outside
the synonym table all yield `UNKNOWN`. -/
theorem C5_classification_degrades_to_unknown :
    (∀ (e : String) (llmResult : Except String String),
        classifyDocument (.error e) llmResult = .unknown) ∧
    (∀ (t e : String), classifyDocument (.ok t) (.error e) = .unknown) ∧
    (∀ (t response : String),
        lookupMapping typeMapping (normalizeLabel response) = none →
        classifyDocument (.ok t) (.ok response) = .unknown) := by
  refine ⟨fun e llmResult => rfl, fun t e => rfl, fun t response h => ?_⟩
  simp [classifyDocument, parseClassificationResponse, h]

/-- Witness for C5: the backend answering the unmapped label `invoice`
classifies as `UNKNOWN`. -/
theorem C5_witness :
    classifyDocument (.ok "some document text") (.ok "invoice") = .unknown :=
  C5_classification_degrades_to_unknown.2.2 "some document text" "invoice" (by decide)

/-- C6 (code bug): the fallback pass never returns data to merge —
`_extract_with_llm` raises `AttributeError` at the undefined
`self._call_llm` — so on the spec's own example (a deterministic pass
producing only `total_amount = 100`, which triggers the fallback)
extraction raises instead of yielding the merged record, and in general
every bill run either skips the fallback or fails with that exception:
`extracted.update(llm_data)` is unreachable. -/
theorem C6_fallback_merge_unreachable :
    (billExtractRun [("total_amount", .vnum 100)]).llmCalled = true ∧
    (billExtractRun [("total_amount", .vnum 100)]).result =
      .error extractionAgentLlmFailure ∧
    (∀ regex : ExtractDict,
        (billExtractRun regex).llmCalled = false ∨
        (billExtractRun regex).result = .error extractionAgentLlmFailure) := by
  refine ⟨by decide, by decide, fun regex => ?_⟩
  by_cases h : hasAllKeys regex billRequiredFields
  · left; simp [billExtractRun, h]
  · right; simp [billExtractRun, h]

/-- C7 counterexample: a deterministic pass that already populated all
four required ID-card fields still triggers the fallback invocation —
`id_card_agent.extract` invokes its LLM pass unconditionally. -/
theorem C7_counterexample :
    (idCardExtractRun sampleIdCardDict).llmCalled = true := rfl

/-- C7 (amended): only the bill agent gates the fallback pass on the
deterministic pass's required fields; the ID-card, prescription and
lab-report agents invoke it unconditionally, exactly like the free-form
discharge agent. -/
theorem C7_amended_fallback_gating :
    (∀ regex : ExtractDict,
        ((billExtractRun regex).llmCalled = false ↔
          hasAllKeys regex billRequiredFields = true)) ∧
    (∀ regex : ExtractDict, (idCardExtractRun regex).llmCalled = true) ∧
    (∀ regex : ExtractDict, (prescriptionExtractRun regex).llmCalled = true) ∧
    (∀ regex : ExtractDict, (labReportExtractRun regex).llmCalled = true) ∧
    (∀ regex : ExtractDict, (dischargeExtractRun regex).llmCalled = true) := by
  refine ⟨fun regex => ?_, fun _ => rfl, fun _ => rfl, fun _ => rfl, fun _ => rfl⟩
  by_cases h : hasAllKeys regex billRequiredFields <;> simp [billExtractRun, h]

/-- `_calculate_total_amount` returns `0` on every batch: its
`hasattr(doc, 'total_amount')` guard never passes on the RootModel
wrappers it is fed. -/
theorem calculateTotalAmount_eq_zero (documents : List ClaimDocument) :
    calculateTotalAmount documents = 0 := by
  induction documents with
  | nil => rfl
  | cons doc rest _ =>
    simp [calculateTotalAmount, ClaimDocument.totalAmountAttr, List.foldl_cons]

/-- C3 (code bug): the decision rules do fire in the claimed priority
order, but the total they act on is `_calculate_total_amount`, which is
`0` for every batch because the RootModel wrapper hides `total_amount`
from its `hasattr` read.  Hence no decision ever carries the sum of bill
totals, the exceeds-automatic-approval reason is unreachable, and a
clean validation over a 12,000 bill is approved at amount `0` instead of
deferred. -/
theorem C3_bill_totals_invisible :
    (∀ documents : List ClaimDocument, calculateTotalAmount documents = 0) ∧
    (∀ (documents : List ClaimDocument) (v : ClaimValidation),
        (makeDecision documents v).reason =
            "Missing required documents: " ++
              String.intercalate ", " v.missing_documents ∨
        (makeDecision documents v).reason =
            "Data discrepancies found, requires manual review" ∨
        (makeDecision documents v).reason = "Claim meets all requirements") ∧
    specBillTotalsSum overLimitBatch = 12000 ∧
    makeDecision overLimitBatch
        { missing_documents := [], discrepancies := [], is_valid := true } =
      { status := .approved
        reason := "Claim meets all requirements"
        amount_approved := 0
        amount_rejected := 0 } := by
  refine ⟨calculateTotalAmount_eq_zero, fun documents v => ?_, ?_, ?_⟩
  · by_cases hm : v.missing_documents = []
    · by_cases hd : v.discrepancies = []
      · right; right
        simp [makeDecision, hm, hd, calculateTotalAmount_eq_zero documents]
      · right; left; simp [makeDecision, hm, hd]
    · left; simp [makeDecision, hm]
  · simp [specBillTotalsSum, overLimitBatch, billDocOverLimit, idCardDocA]
  · simp [makeDecision, calculateTotalAmount_eq_zero overLimitBatch]

/-- C8 counterexample: the ID-card agent's `_parse_date` returns `None`
for an unparseable date, not the raw string — the raw-string pass-through
holds only in the bill agent. -/
theorem C8_counterexample : idCardParseDate "not-a-date" = none := by decide

/-- C8 (amended): every agent tries ISO `YYYY-MM-DD` first and normalizes
a successful parse to `YYYY-MM-DD` (so `04/10/2024` and `2024-04-10`
agree), and an input matching no format is returned stripped-but-unchanged
by the bill agent, while the ID-card and lab-report agents return `None`
for it (their regex callers then drop the field). -/
theorem C8_amended_date_normalization :
    billParseDate "2024-04-10" = "2024-04-10" ∧
    billParseDate "04/10/2024" = "2024-04-10" ∧
    idCardParseDate "04/10/2024" = some "2024-04-10" ∧
    billParseDate "not-a-date" = "not-a-date" ∧
    labReportParseDate "not-a-date" = none ∧
    (billDateFormats.head? = some (.ymd '-') ∧
      idCardDateFormats.head? = some (.ymd '-') ∧
      labReportDateFormats.head? = some (.ymd '-') ∧
      prescriptionDateFormats.head? = some (.ymd '-')) ∧
    (∀ s : String, s ≠ "" →
      tryFormatsList billDateFormats (stripChars s.toList) = none →
      billParseDate s = String.mk (stripChars s.toList)) ∧
    (∀ s : String,
      tryFormatsList idCardDateFormats (stripChars s.toList) = none →
      idCardParseDate s = none) := by
  refine ⟨by decide, by decide, by decide, by decide, by decide,
    ⟨rfl, rfl, rfl, rfl⟩, fun s hs hn => ?_, fun s hn => ?_⟩
  · have hn' : tryFormatsList billDateFormats (stripChars s.data) = none := hn
    simp [billParseDate, hs, hn']
  · have hn' : tryFormatsList idCardDateFormats (stripChars s.data) = none := hn
    by_cases hs : s = ""
    · simp [idCardParseDate, hs]
    · simp [idCardParseDate, hs, hn']

/-- Witness for C8: an all-numeric but invalid date falls through every
bill-agent format and is preserved unchanged. -/
theorem C8_witness : billParseDate "99/99/9999" = "99/99/9999" := by
  have h := C8_amended_date_normalization.2.2.2.2.2.2.1 "99/99/9999"
    (by decide) (by decide)
  exact h.trans (by decide)

/-- The collection loop never stores anything: every step returns its
accumulator unchanged, since the `hasattr` guard never passes. -/
theorem foldl_patientNameStep_const (documents : List ClaimDocument) :
    ∀ acc, documents.foldl patientNameStep acc = acc := by
  induction documents with
  | nil => intro acc; rfl
  | cons doc rest ih =>
    intro acc
    rw [List.foldl_cons, show patientNameStep acc doc = acc from rfl]
    exact ih acc

/-- C9 counterexample: with exactly two same-type bills carrying
different non-empty patient names and an ID card alongside, the
Validator indeed reports no discrepancy — but `is_valid` is false and
both required documents are reported missing although both are present:
the RootModel wrapper hides `type` and `patient_name` alike, so the
claimed overwrite-before-compare never executes. -/
theorem C9_counterexample :
    validateClaim conflictingNamesBatch =
      { missing_documents := ["medical bill", "insurance ID card"]
        discrepancies := []
        is_valid := false } := by decide

/-- C9 (amended): for every batch the patient-name dictionary stays
empty — the `hasattr(doc, 'patient_name')` guard never passes on the
RootModel wrapper, so the description-keyed overwrite never runs — hence
no discrepancy is ever recorded; and `is_valid = true` is unreachable,
because the equally invisible `type` attribute leaves both required
documents reported missing. -/
theorem C9_names_never_collected (documents : List ClaimDocument) :
    patientNamesDict documents = [] ∧
    (validateClaim documents).discrepancies = [] ∧
    (validateClaim documents).missing_documents =
      ["medical bill", "insurance ID card"] ∧
    (validateClaim documents).is_valid = false := by
  have hpn : patientNamesDict documents = [] :=
    foldl_patientNameStep_const documents []
  have hft : documents.filterMap ClaimDocument.typeAttr = [] := by
    simp [List.filterMap_eq_nil_iff, ClaimDocument.typeAttr]
  have hmiss : missingDocsList documents = ["medical bill", "insurance ID card"] := by
    simp [missingDocsList, hft, requiredDocs, docDescription, docDescriptions,
      lookupDesc]
  have hdisc : discrepanciesList documents = [] := by
    unfold discrepanciesList
    split <;> simp [hpn]
  exact ⟨hpn, by simp [validateClaim, hdisc], by simp [validateClaim, hmiss],
    by simp [validateClaim, hmiss]⟩

/-- C10 (code bug): no lab-report extraction ever succeeds — even with a
deterministic pass covering every required field, `extract` raises
`AttributeError` at its unconditional fallback invocation before it could
reach the required-field check or the `date_reported` defaulting (dead
code at lines 47-48) — and every run on the same pass output fails with
the identical exception, so there is no clock dependence to observe. -/
theorem C10_lab_extraction_never_succeeds :
    hasAllKeys sampleLabRegex labReportRequiredFields = true ∧
    (labReportExtractRun sampleLabRegex).result =
      .error extractionAgentLlmFailure ∧
    (∀ regex : ExtractDict,
        (labReportExtractRun regex).llmCalled = true ∧
        (labReportExtractRun regex).result = .error extractionAgentLlmFailure) :=
  ⟨by decide, rfl, fun _ => ⟨rfl, rfl⟩⟩

/-- The `except` handler's minimal error document never validates against
the `ClaimDocument` union: each member's required keys are absent from
`{"type", "file_name", "error", "status"}`. -/
theorem errorDict_never_validates (inp : InputDoc) (msg : String) :
    claimDocumentValidates (errorDict inp msg) = false := by
  simp [claimDocumentValidates, memberAccepts, errorDict, memberRequiredKeys,
    hasAllKeys, containsKey, getKey]

/-- C1 (code bug): a batch whose middle document raises does not yield a
`ProcessedClaim` with a per-document failure outcome — the handler's own
`ClaimDocument.parse_obj` call raises, because its minimal error
dictionary satisfies no union member, and the exception escapes the
batch loop. -/
theorem C1_error_outcome_escapes :
    processDocuments failingBatch = .error "ValidationError" ∧
    (∀ (inp : InputDoc) (msg : String),
        claimDocumentValidates (errorDict inp msg) = false) :=
  ⟨by decide, errorDict_never_validates⟩

/-- C2 counterexample: a one-document batch classified `UNKNOWN` yields
an empty outcome list — the document is dropped, not reported as
skipped, so the outcome list does not have length `N`. -/
theorem C2_counterexample :
    processDocuments [unknownInput] = .ok [] ∧ [unknownInput].length = 1 :=
  ⟨rfl, rfl⟩

/-- C2 (amended): over a batch whose non-`UNKNOWN` documents all extract
and re-validate successfully, the orchestrator emits exactly one outcome
per non-`UNKNOWN` input, in input order; `UNKNOWN` documents are dropped
from the outcome list entirely. -/
theorem C2_amended_one_outcome_per_known_doc (docs : List InputDoc)
    (h : ∀ inp ∈ docs, docSucceeds inp = true) :
    processDocuments docs = .ok (docs.filterMap fun inp =>
      if inp.docType = .unknown then none
      else
        match inp.agentResult with
        | .ok d => some (fileAnnotate d inp)
        | .error _ => none) := by
  induction docs with
  | nil => rfl
  | cons inp rest ih =>
    have hi := h inp (List.mem_cons_self inp rest)
    have hr : ∀ x ∈ rest, docSucceeds x = true :=
      fun x hx => h x (List.mem_cons_of_mem inp hx)
    by_cases hu : inp.docType = .unknown
    · simp [processDocuments, hu, ih hr]
    · rcases ha : inp.agentResult with msg | d
      · simp [docSucceeds, hu, ha] at hi
      · have hv : claimDocumentValidates (fileAnnotate d inp) = true := by
          simpa [docSucceeds, hu, ha] using hi
        simp [processDocuments, hu, ha, hv, ih hr, Except.map]

/-- Witness for C2: the bill and ID card of the mixed batch come back in
order; the `UNKNOWN` document between them leaves no outcome. -/
theorem C2_witness :
    processDocuments mixedBatch =
      .ok [fileAnnotate sampleBillDict ⟨"b.pdf", 10, .bill, .ok sampleBillDict⟩,
           fileAnnotate sampleIdCardDict ⟨"c.pdf", 20, .idCard, .ok sampleIdCardDict⟩] := by
  have h := C2_amended_one_outcome_per_known_doc mixedBatch (by decide)
  exact h.trans rfl

end Aegis
